import Mathlib

/-!
Shallow embedding of `src/agp.py`, a deployment orchestration script that
provisions search indexes, API keys and mirrored secrets across named
environments and synchronizes the result into extension files and a shared
firebase manifest.  Python dictionaries are modelled as association lists,
Python strings as `String`, untyped YAML scalars as `PyVal`, and Python
exceptions as an explicit `PyErr` error type threaded through `Except`.
A bare Python `except:` catches every `PyErr` (including `systemExit`,
which models `SystemExit` raised by `exit(n)`), while Python
`except Exception` catches only `PyErr.exc`.
-/

/-- A Python scalar value as read from YAML/JSON: the embedding keeps strings,
booleans and integers distinct because the source mixes them (for example the
default for forceDataSync is the string "no"). -/
inductive PyVal where
  | vstr (s : String)
  | vbool (b : Bool)
  | vint (n : Int)
  deriving DecidableEq, Repr

/-- A Python exception, split by what the handlers in `agp.py` distinguish:
`systemExit code` models `SystemExit` (raised by `exit(code)`), which a bare
`except:` catches but `except Exception` does not; `exc` models any ordinary
`Exception` (KeyError, TypeError, NameError, provisioning-engine errors...). -/
inductive PyErr where
  | systemExit (code : Nat)
  | exc
  deriving DecidableEq, Repr

/-- Result of running a piece of Python code: either a value or an uncaught
exception propagating to the caller. -/
abbrev PyResult (α : Type) := Except PyErr α

/-- A JSON value, enough structure for the firebase manifest: the manifest is
an object whose "extensions" entry is an object of extension-id to version
strings; other entries are arbitrary. -/
inductive JVal where
  | jstr (s : String)
  | jbool (b : Bool)
  | jint (n : Int)
  | jnull
  | jobj (entries : List (String × JVal))

/-- Python `d.get(k)` on a dict modelled as an association list:
first entry with the given key, if any. -/
def getKey {α : Type} (k : String) : List (String × α) → Option α
  | [] => none
  | (k', v) :: rest => if k' = k then some v else getKey k rest

/-- Python `d[k] = v` on a dict: replace the value of an existing key in
place, otherwise append the new entry at the end (Python dicts preserve
insertion order). -/
def setKey {α : Type} (k : String) (v : α) : List (String × α) → List (String × α)
  | [] => [(k, v)]
  | (k', v') :: rest => if k' = k then (k, v) :: rest else (k', v') :: setKey k v rest

/-- Python `del d[k]` on a dict: `none` models the `KeyError` raised when the
key is absent, otherwise the dict without that entry. -/
def delKey {α : Type} (k : String) : List (String × α) → Option (List (String × α))
  | [] => none
  | (k', v) :: rest =>
    if k' = k then some rest
    else (delKey k rest).map (fun r => (k', v) :: r)

/-- Python `f"{x}"` applied to a value that may be `None`: `None` renders as
the string "None". -/
def pyOptStr : Option String → String
  | some s => s
  | none => "None"

/-! ## Stage outcome gate: `skip_file_update` (agp.py lines 411-427) -/

/-- The observable behavior of one provisioning-stack operation in the
external world: whether the call raises an ordinary exception, and the
`summary.resource_changes` dict of the response (`none` models a missing
or `None` summary, whose extraction fails). -/
structure StackBeh where
  raises : Bool
  resource_changes : Option (List (String × Int))
  deriving DecidableEq, Repr

/-- `skip_file_update(resp, verb)` from agp.py: defaults to skip; for verb
"up" it extracts `resp.summary.resource_changes`, executes
`del resource_changes["same"]` (KeyError when "same" is absent is swallowed
by the bare `except`, leaving skip at its default True), and returns False
only when the remaining dict is non-empty. -/
def skip_file_update (resp : StackBeh) (verb : String) : Bool :=
  if verb = "up" then
    match resp.resource_changes with
    | none => true
    | some rc =>
      match delKey "same" rc with
      | none => true
      | some rc' => rc'.length == 0
  else true

/-- Modelled from the spec (section 4.4): the change summary "after removing
the unchanged bucket" — removal as a plain set-like operation that is a no-op
when the bucket is absent.  Used only to compare the spec reading of C4 with
the source function `skip_file_update`. -/
def spec_remove_same (rc : List (String × Int)) : List (String × Int) :=
  rc.filter (fun p => p.1 ≠ "same")

/-! ## Admin credential lookup: `get_agp_admin_config` (agp.py lines 379-408) -/

/-- One environment entry of the JSON admin-secrets file; each field is
optional because the source looks the keys up individually and turns any
`KeyError` into empty credentials. -/
structure EnvCreds where
  apiKey : Option String
  appId : Option String
  gcpProject : Option String
  deriving DecidableEq, Repr

/-- Result of `get_agp_admin_config`: the credential triple
(apiKey, appId, gcpProject) and whether the missing-environment warning was
logged. -/
structure AdminCfgResult where
  creds : String × String × String
  warned : Bool
  deriving DecidableEq, Repr

/-- `get_agp_admin_config(config_file, env)` from agp.py: the parsed secrets
file is `none` when the JSON is malformed (the read helper then logs and
calls `exit(1)`); a `KeyError` on `cfg[env]` or on any of the three field
lookups yields the all-empty triple plus a warning; otherwise the triple of
values found. -/
def get_agp_admin_config (cfg : Option (List (String × EnvCreds))) (env : String) :
    PyResult AdminCfgResult :=
  match cfg with
  | none => .error (.systemExit 1)
  | some entries =>
    match getKey env entries with
    | none => .ok ⟨("", "", ""), true⟩
    | some e =>
      match e.apiKey, e.appId, e.gcpProject with
      | some k, some a, some p => .ok ⟨(k, a, p), false⟩
      | _, _, _ => .ok ⟨("", "", ""), true⟩

/-! ## API-key field defaults: `create_or_update_algolia_api_keys`
(agp.py lines 59-88) -/

/-- One API-key spec dict from the YAML config; every field the source reads
with `.get` is optional here. -/
structure ApiKeySpecDict where
  name : Option String
  acls : Option (List String)
  indexes : Option (List String)
  description : Option String
  maxApiCall : Option Int
  maxHitsPerQuery : Option Int
  referers : Option (List String)
  validity : Option Int
  deriving DecidableEq, Repr

/-- The field values actually passed to the ApiKey resource constructor. -/
structure ResolvedApiKey where
  name : Option String
  acls : Option (List String)
  indexes : List String
  description : String
  max_api_call : Int
  max_hits_per_query : Int
  referers : List String
  validity : Int
  deriving DecidableEq, Repr

/-- The per-key body of `create_or_update_algolia_api_keys` from agp.py:
each optional field resolved with the default the source supplies to
`.get`. -/
def resolve_api_key (k : ApiKeySpecDict) : ResolvedApiKey :=
  { name := k.name
    acls := k.acls
    indexes := k.indexes.getD []
    description := k.description.getD ("API Key for " ++ pyOptStr k.name)
    max_api_call := k.maxApiCall.getD 15000
    max_hits_per_query := k.maxHitsPerQuery.getD 0
    referers := k.referers.getD []
    validity := k.validity.getD 0 }

/-! ## Environment selection: `get_environments_to_deploy`
(agp.py lines 252-267) and the substitution in `run` (lines 450-452) -/

/-- Python `s.split(",")` on the character list of a string: always returns at
least one (possibly empty) token; a separator at either end yields an empty
token there. -/
def splitOnComma : List Char → List (List Char)
  | [] => [[]]
  | c :: cs =>
    match splitOnComma cs with
    | r :: rs => if c = ',' then [] :: r :: rs else (c :: r) :: rs
    | [] => [[c]]

/-- Python `list.remove(x)` with the `ValueError` swallowed, as in the source:
removes the first occurrence of `x` if present, otherwise leaves the list
unchanged. -/
def removeFirst (x : String) : List String → List String
  | [] => []
  | y :: ys => if y = x then ys else y :: removeFirst x ys

/-- `get_environments_to_deploy(env)` from agp.py: split the filter on commas
and drop the first "all" token if there is one. -/
def get_environments_to_deploy (env : String) : List String :=
  removeFirst "all" ((splitOnComma env.data).map (fun l => String.mk l))

/-- The list of environment names processed by `run` (agp.py lines 450-452):
the filter tokens, or the full configured list when no tokens remain. -/
def resolve_environments (filter : String) (configured : List String) : List String :=
  let environments := get_environments_to_deploy filter
  if environments = [] then configured else environments

/-! ## Global configuration: `get_env_config` (agp.py lines 270-300) -/

/-- One environment entry of the YAML config (`EnvConfig` in the spec).
`pfx` and `ns` model the "prefix" and "namespace" keys. -/
structure EnvConf where
  pfx : Option String
  ns : Option String
  algoliaApiKeyName : Option String
  algoliaAppId : Option String
  forceDataSync : Option PyVal
  location : Option String
  algoliaIndexes : Option (List String)
  algoliaApiKeys : Option (List ApiKeySpecDict)

/-- The "global" section of the YAML config. -/
structure GlobalCfg where
  algoliaApiKeyName : Option String
  forceDataSync : Option PyVal
  location : Option String
  environments : Option (List (String × EnvConf))
  searchExtension : Option String

/-- The whole parsed YAML config file. -/
structure AgpCfg where
  glob : Option GlobalCfg
  algoliaIndexes : Option (List String)
  algoliaApiKeys : Option (List ApiKeySpecDict)

/-- The tuple `get_env_config` returns to `run`. -/
structure EnvCfgResult where
  algolia_api_key_name : Option String
  force_data_sync : PyVal
  location : String
  envs : Option (List (String × EnvConf))
  algolia_indexes_gen : Option (List String)
  algolia_api_keys_gen : Option (List ApiKeySpecDict)
  firebase_search_extension : String

/-- `get_env_config(cfg)` from agp.py: when the "global" key is absent,
`None.get(...)` raises AttributeError, which the surrounding
`except Exception` turns into `exit(1)`; otherwise each field is read with
the default the source supplies (note the forceDataSync default is the
string "no"). -/
def get_env_config (cfg : AgpCfg) : PyResult EnvCfgResult :=
  match cfg.glob with
  | none => .error (.systemExit 1)
  | some g =>
    .ok { algolia_api_key_name := g.algoliaApiKeyName
          force_data_sync := g.forceDataSync.getD (PyVal.vstr "no")
          location := g.location.getD "us-west2"
          envs := g.environments
          algolia_indexes_gen := cfg.algoliaIndexes
          algolia_api_keys_gen := cfg.algoliaApiKeys
          firebase_search_extension :=
            g.searchExtension.getD "algolia/firestore-algolia-search@0.5.13" }

/-! ## Extension-file and manifest-key derivation
(`create_or_update_cfg_files`, agp.py lines 320-376) -/

/-- Python `index.replace(".", "-")` on the character list. -/
def replaceDots : List Char → List Char
  | [] => []
  | c :: cs => (if c = '.' then '-' else c) :: replaceDots cs

/-- Whether `sep` is a prefix of the character list (first step of locating
an occurrence of `sep`). -/
def startsWith : List Char → List Char → Bool
  | [], _ => true
  | _ :: _, [] => false
  | p :: ps, c :: cs => p == c && startsWith ps cs

/-- The part of a character list before the first occurrence of `sep`
(the whole list when `sep` does not occur): Python `s.split(sep)[0]`. -/
def takeBeforeFirst (sep : List Char) : List Char → List Char
  | [] => []
  | c :: cs => if startsWith sep (c :: cs) then [] else c :: takeBeforeFirst sep cs

/-- `index.replace(".", "-")` as a string operation. -/
def pyReplaceDot (s : String) : String := String.mk (replaceDots s.data)

/-- agp.py line 345: derived name of the per-index extension file. -/
def extension_file_name (index environment : String) : String :=
  "search-" ++ pyReplaceDot index ++ ".env." ++ environment

/-- agp.py line 372: `extension_file_name.split(".env")[0]`, the manifest key
for an extension file name. -/
def split_env_key (s : String) : String :=
  String.mk (takeBeforeFirst ".env".data s.data)

/-- agp.py lines 366-376 (per index): the functional effect on the parsed
firebase manifest of `firebase_extensions[extension] = firebase_search_extension`
followed by the whole-file rewrite.  `none` models the TypeError raised when
the manifest has no "extensions" object. -/
def firebase_update (entries : List (String × JVal)) (extension ver : String) :
    Option (List (String × JVal)) :=
  match getKey "extensions" entries with
  | some (JVal.jobj exts) =>
    some (setKey "extensions" (JVal.jobj (setKey extension (JVal.jstr ver) exts)) entries)
  | _ => none

/-- agp.py line 353: the forceDataSync value used for a given environment,
the environment-level override if present, else the run-level value. -/
def env_force_data_sync (environment_config : EnvConf) (force_data_sync : PyVal) : PyVal :=
  environment_config.forceDataSync.getD force_data_sync

/-! ## The verb dispatcher: `execute_pulumi_verb` (agp.py lines 219-249) -/

/-- `execute_pulumi_verb(stack, verb, stack_name)` from agp.py: "preview"
logs the change plan and calls `exit(0)`, i.e. raises SystemExit(0); "rm",
"rm-stack" and "up" run the corresponding stack operation and return its
response; any other verb logs an error and calls `exit(1)`.  The external
stack operation itself may raise an ordinary exception (`beh.raises`). -/
def execute_pulumi_verb (beh : StackBeh) (verb : String) : PyResult StackBeh :=
  if verb = "preview" then
    if beh.raises then .error .exc else .error (.systemExit 0)
  else if verb = "rm" ∨ verb = "rm-stack" then
    if beh.raises then .error .exc else .ok beh
  else if verb = "up" then
    if beh.raises then .error .exc else .ok beh
  else .error (.systemExit 1)

/-! ## File synchronization: `create_or_update_cfg_files`
(agp.py lines 320-376) -/

/-- The `update_dictionary` built in `run` (agp.py lines 559-572), unpacked at
the top of `create_or_update_cfg_files`.  The field `admmin_app_id` keeps the
source's misspelt local name from line 335; the correctly spelt
`admin_app_id` that line 352 reads is bound nowhere in the function, so that
line raises NameError whenever it is executed. -/
structure UpdateDict where
  skip_update_extensions : Bool
  skip_update_firebase_config : Bool
  environment : String
  environment_config : EnvConf
  algolia_indexes : List String
  firebase_search_extension : String
  algolia_api_key_name : Option String
  admmin_app_id : String
  force_data_sync : PyVal
  location : String

/-- The per-index loop of `create_or_update_cfg_files`, threading the parsed
firebase manifest (the only file state later iterations read back; `none`
models an unparseable file, on which `get_config_from_json_file` calls
`exit(1)`).  When extension updates are not skipped, line 352 reads the
unbound name `admin_app_id` and raises NameError before any write; when
manifest updates are not skipped, the manifest is read, patched at the
derived key and rewritten. -/
def cfg_files_loop (d : UpdateDict) (fb : Option (List (String × JVal))) :
    List String → PyResult (Option (List (String × JVal)))
  | [] => .ok fb
  | index :: rest =>
    let name := extension_file_name index d.environment
    if ¬d.skip_update_extensions then
      .error .exc
    else if ¬d.skip_update_firebase_config then
      match fb with
      | none => .error (.systemExit 1)
      | some entries =>
        match firebase_update entries (split_env_key name) d.firebase_search_extension with
        | none => .error .exc
        | some entries' => cfg_files_loop d (some entries') rest
    else cfg_files_loop d fb rest

/-- `create_or_update_cfg_files(update_dictionary)` from agp.py, as a function
from the parsed firebase manifest to the resulting manifest, or an uncaught
exception (nothing in `run` catches exceptions raised here). -/
def create_or_update_cfg_files (d : UpdateDict) (fb : Option (List (String × JVal))) :
    PyResult (Option (List (String × JVal))) :=
  cfg_files_loop d fb d.algolia_indexes

/-! ## The per-environment loop of `run` (agp.py lines 430-574) -/

/-- The command-line arguments `run` consumes. -/
structure Args where
  verb : String
  environment : String
  indexes_only : Bool
  api_keys_only : Bool
  skip_update_extensions : Bool
  skip_update_firebase_config : Bool

/-- The external behavior of the provisioning engine for one environment:
one behavior per stack, plus whether the `pulumi stack output` secret fetch
raises. -/
structure EnvWorld where
  behIndexes : StackBeh
  behApiKeys : StackBeh
  behSecrets : StackBeh
  secretsFetchRaises : Bool

/-- Observable events of a run, in order. -/
inductive Event where
  | envStart (env : String)
  | stackExec (stackName : String) (verb : String)
  | fileSync (skipExt skipFb : Bool)
  deriving DecidableEq, Repr

/-- agp.py lines 490-511: the index stage.  The `try` body executes the verb
on the indexes stack; the bare `except:` catches every exception — including
the SystemExit raised by the "preview" verb — and forces
`skip_update_extensions` to True; on success the flag is recomputed from the
change summary. -/
def index_stage (verb stack_name_indexes : String) (beh : StackBeh) :
    List Event × Bool :=
  match execute_pulumi_verb beh verb with
  | .ok resp => ([Event.stackExec stack_name_indexes verb], skip_file_update resp verb)
  | .error _ => ([Event.stackExec stack_name_indexes verb], true)

/-- agp.py lines 513-557: the API-key stage, covering the api-keys stack, the
secret-value fetch and the secrets stack.  The `except Exception` handler
catches ordinary exceptions anywhere in the body and forces
`skip_update_firebase_config` to True, but does not catch SystemExit, which
propagates to the caller. -/
def api_key_stage (verb project_name : String) (w : EnvWorld) :
    List Event × PyResult Bool :=
  let sK := project_name ++ "-api-keys"
  let sS := project_name ++ "-secrets"
  match execute_pulumi_verb w.behApiKeys verb with
  | .error (PyErr.systemExit c) => ([Event.stackExec sK verb], .error (PyErr.systemExit c))
  | .error PyErr.exc => ([Event.stackExec sK verb], .ok true)
  | .ok resp =>
    let skip_fb := skip_file_update resp verb
    if w.secretsFetchRaises then ([Event.stackExec sK verb], .ok true)
    else
      match execute_pulumi_verb w.behSecrets verb with
      | .error (PyErr.systemExit c) =>
        ([Event.stackExec sK verb, Event.stackExec sS verb], .error (PyErr.systemExit c))
      | .error PyErr.exc =>
        ([Event.stackExec sK verb, Event.stackExec sS verb], .ok true)
      | .ok _ =>
        ([Event.stackExec sK verb, Event.stackExec sS verb], .ok skip_fb)

/-- The body of the `for env in environments` loop of `run` (agp.py lines
454-574) for a single environment: environment lookup (an unknown name makes
`None.get("prefix")` raise AttributeError, uncaught), credential lookup,
the credential gate, the two stage blocks — note the list concatenations at
lines 493 and 517 sit outside the `try`, so a missing top-level index or key
list raises TypeError uncaught — and finally the file synchronization. -/
def processEnv (args : Args) (g : EnvCfgResult) (secretsCfg : Option (List (String × EnvCreds)))
    (w : EnvWorld) (env : String) (fb : Option (List (String × JVal))) :
    List Event × PyResult (Option (List (String × JVal))) :=
  match g.envs with
  | none => ([Event.envStart env], .error PyErr.exc)
  | some envs =>
    match getKey env envs with
    | none => ([Event.envStart env], .error PyErr.exc)
    | some env_conf =>
      let env_ns := pyOptStr env_conf.ns
      match get_agp_admin_config secretsCfg (env_ns ++ "-" ++ env) with
      | .error e => ([Event.envStart env], .error e)
      | .ok adminRes =>
        let admin_api_key := adminRes.creds.1
        let admin_app_id := adminRes.creds.2.1
        let gcp_project := adminRes.creds.2.2
        let project_name := pyOptStr env_conf.pfx ++ "--" ++ env_ns ++ "-" ++ env
        let both_unset := !args.indexes_only && !args.api_keys_only
        let creds_incomplete :=
          admin_api_key.length == 0 || admin_app_id.length == 0 || gcp_project.length == 0
        let deploy_indexes := (args.indexes_only || both_unset) && !creds_incomplete
        let deploy_api_keys := (args.api_keys_only || both_unset) && !creds_incomplete
        let skip_ext0 := if creds_incomplete then true else args.skip_update_extensions
        let skip_fb0 := if creds_incomplete then true else args.skip_update_firebase_config
        let idxPart : List Event × PyResult (List String × Bool) :=
          if deploy_indexes then
            match g.algolia_indexes_gen with
            | none => ([], .error PyErr.exc)
            | some gen =>
              let algolia_indexes := gen ++ env_conf.algoliaIndexes.getD []
              let (ev, sk) := index_stage args.verb (project_name ++ "-indexes") w.behIndexes
              (ev, .ok (algolia_indexes, sk))
          else ([], .ok ([], skip_ext0))
        match idxPart with
        | (ev1, .error e) => (Event.envStart env :: ev1, .error e)
        | (ev1, .ok (algolia_indexes, skip_ext)) =>
          let apiPart : List Event × PyResult Bool :=
            if deploy_api_keys then
              match g.algolia_api_keys_gen with
              | none => ([], .error PyErr.exc)
              | some _gen => api_key_stage args.verb project_name w
            else ([], .ok skip_fb0)
          match apiPart with
          | (ev2, .error e) => (Event.envStart env :: ev1 ++ ev2, .error e)
          | (ev2, .ok skip_fb) =>
            let d : UpdateDict :=
              { skip_update_extensions := skip_ext
                skip_update_firebase_config := skip_fb
                environment := env
                environment_config := env_conf
                algolia_indexes := algolia_indexes
                firebase_search_extension := g.firebase_search_extension
                algolia_api_key_name := g.algolia_api_key_name
                admmin_app_id := admin_app_id
                force_data_sync := g.force_data_sync
                location := g.location }
            (Event.envStart env :: ev1 ++ ev2 ++ [Event.fileSync skip_ext skip_fb],
             create_or_update_cfg_files d fb)

/-- The `for env in environments` loop of `run`: environments strictly in
order, each threading the firebase manifest state forward; an uncaught
exception from one environment aborts the whole loop. -/
def runLoop (args : Args) (g : EnvCfgResult) (secretsCfg : Option (List (String × EnvCreds)))
    (worlds : String → EnvWorld) (fb : Option (List (String × JVal))) :
    List String → List Event × PyResult (Option (List (String × JVal)))
  | [] => ([], .ok fb)
  | env :: rest =>
    match processEnv args g secretsCfg (worlds env) env fb with
    | (ev, .error e) => (ev, .error e)
    | (ev, .ok fb') =>
      let (ev', r') := runLoop args g secretsCfg worlds fb' rest
      (ev ++ ev', r')

/-- `run(args)` from agp.py (lines 430-574): load and extract the config,
resolve the environment filter (iterating `None` raises TypeError when the
filter resolves empty and the config has no environments mapping), then
process every selected environment in order. -/
def run_model (args : Args) (cfg : AgpCfg) (secretsCfg : Option (List (String × EnvCreds)))
    (worlds : String → EnvWorld) (fb : Option (List (String × JVal))) :
    List Event × PyResult (Option (List (String × JVal))) :=
  match get_env_config cfg with
  | .error e => ([], .error e)
  | .ok g =>
    let envNames := get_environments_to_deploy args.environment
    if envNames = [] then
      match g.envs with
      | none => ([], .error PyErr.exc)
      | some envs => runLoop args g secretsCfg worlds fb (envs.map Prod.fst)
    else runLoop args g secretsCfg worlds fb envNames

/-! ## Concrete run inputs used by the claim theorems -/

/-- Concrete config for C9: forceDataSync unset at the global level. -/
def c9Cfg : AgpCfg :=
  { glob := some { algoliaApiKeyName := none, forceDataSync := none, location := none,
                   environments := some [], searchExtension := none },
    algoliaIndexes := none, algoliaApiKeys := none }

/-- Concrete environment config for C9: forceDataSync unset at the
environment level. -/
def c9Conf : EnvConf :=
  { pfx := none, ns := none, algoliaApiKeyName := none, algoliaAppId := none,
    forceDataSync := none, location := none, algoliaIndexes := none, algoliaApiKeys := none }

/-- Concrete environment config for the C5 witness. -/
def c5Conf : EnvConf :=
  { pfx := some "acme", ns := some "search", algoliaApiKeyName := none, algoliaAppId := none,
    forceDataSync := none, location := none, algoliaIndexes := none, algoliaApiKeys := none }

/-- Concrete extracted global config for the C5 witness. -/
def c5G : EnvCfgResult :=
  { algolia_api_key_name := some "key", force_data_sync := PyVal.vstr "no",
    location := "us-west2", envs := some [("dev", c5Conf)], algolia_indexes_gen := some ["products"],
    algolia_api_keys_gen := some [], firebase_search_extension := "ext@0.5.13" }

/-- Concrete arguments for the C5 witness. -/
def c5Args : Args :=
  { verb := "up", environment := "dev", indexes_only := false, api_keys_only := false,
    skip_update_extensions := false, skip_update_firebase_config := false }

/-- Concrete stack behaviors for the C5 witness. -/
def c5World : EnvWorld :=
  { behIndexes := ⟨false, some [("same", 1)]⟩, behApiKeys := ⟨false, some [("same", 1)]⟩,
    behSecrets := ⟨false, none⟩, secretsFetchRaises := false }

/-- Environment config for the C2 amended witness. -/
def c2wConf : EnvConf :=
  { pfx := some "acme", ns := some "search", algoliaApiKeyName := none, algoliaAppId := none,
    forceDataSync := none, location := none, algoliaIndexes := some ["products"],
    algoliaApiKeys := none }

/-- Extracted global config for the C2 amended witness. -/
def c2wG : EnvCfgResult :=
  { algolia_api_key_name := some "key", force_data_sync := PyVal.vstr "no",
    location := "us-west2", envs := some [("dev", c2wConf), ("prod", c2wConf)],
    algolia_indexes_gen := some ["gidx"], algolia_api_keys_gen := some [],
    firebase_search_extension := "ext@0.5.13" }

/-- Arguments for the C2 amended witness. -/
def c2wArgs : Args :=
  { verb := "up", environment := "dev,prod", indexes_only := false, api_keys_only := false,
    skip_update_extensions := false, skip_update_firebase_config := false }

/-- Secrets file for the C2 amended witness: complete credentials. -/
def c2wSecrets : Option (List (String × EnvCreds)) :=
  some [("search-dev", ⟨some "k", some "a", some "g"⟩),
        ("search-prod", ⟨some "k", some "a", some "g"⟩)]

/-- World for the C2 amended witness: both provisioning stages raise. -/
def c2wWorlds : String → EnvWorld := fun _ =>
  { behIndexes := ⟨true, none⟩, behApiKeys := ⟨true, none⟩,
    behSecrets := ⟨false, none⟩, secretsFetchRaises := false }

/-- Environment config for the C2 counterexample run. -/
def c2Conf : EnvConf :=
  { pfx := some "p", ns := some "ns", algoliaApiKeyName := none, algoliaAppId := none,
    forceDataSync := none, location := none, algoliaIndexes := none, algoliaApiKeys := none }

/-- Parsed YAML config for the C2 counterexample run: two environments. -/
def c2Cfg : AgpCfg :=
  { glob := some
      { algoliaApiKeyName := some "key", forceDataSync := none, location := none,
        environments := some [("e1", c2Conf), ("e2", c2Conf)], searchExtension := none }
    algoliaIndexes := some ["products"]
    algoliaApiKeys := some [] }

/-- Secrets for the C2 counterexample run: complete credentials for both. -/
def c2Secrets : Option (List (String × EnvCreds)) :=
  some [("ns-e1", ⟨some "k", some "a", some "g"⟩), ("ns-e2", ⟨some "k", some "a", some "g"⟩)]

/-- Arguments for the C2 counterexample run: an indexes-only "up" on all
environments. -/
def c2Args : Args :=
  { verb := "up", environment := "all", indexes_only := true, api_keys_only := false,
    skip_update_extensions := false, skip_update_firebase_config := false }

/-- World for the C2 counterexample run: the index stage succeeds with real
changes, so file updates are not skipped. -/
def c2Worlds : String → EnvWorld := fun _ =>
  { behIndexes := ⟨false, some [("same", 1), ("create", 1)]⟩,
    behApiKeys := ⟨false, some [("same", 1)]⟩,
    behSecrets := ⟨false, none⟩, secretsFetchRaises := false }

/-- Environment config for the C1 run. -/
def c1Conf : EnvConf :=
  { pfx := some "p", ns := some "ns", algoliaApiKeyName := none, algoliaAppId := none,
    forceDataSync := none, location := none, algoliaIndexes := none, algoliaApiKeys := none }

/-- Parsed YAML config for the C1 run: two environments. -/
def c1Cfg : AgpCfg :=
  { glob := some
      { algoliaApiKeyName := some "key", forceDataSync := none, location := none,
        environments := some [("e1", c1Conf), ("e2", c1Conf)], searchExtension := none }
    algoliaIndexes := some ["products"]
    algoliaApiKeys := some [] }

/-- Secrets for the C1 run: complete credentials for both environments. -/
def c1Secrets : Option (List (String × EnvCreds)) :=
  some [("ns-e1", ⟨some "k", some "a", some "g"⟩), ("ns-e2", ⟨some "k", some "a", some "g"⟩)]

/-- Arguments for the C1 run: verb "preview" over all environments,
indexes only. -/
def c1Args : Args :=
  { verb := "preview", environment := "all", indexes_only := true, api_keys_only := false,
    skip_update_extensions := false, skip_update_firebase_config := true }

/-- World for the C1 run: every stack operation succeeds. -/
def c1Worlds : String → EnvWorld := fun _ =>
  { behIndexes := ⟨false, some [("same", 1)]⟩, behApiKeys := ⟨false, some [("same", 1)]⟩,
    behSecrets := ⟨false, none⟩, secretsFetchRaises := false }

/-! ## Helper lemmas -/

/-- A string has length zero exactly when it is empty. -/
theorem string_length_eq_zero (s : String) : s.length = 0 ↔ s = "" := by
  constructor
  · intro h
    have hd : s.data = [] := List.length_eq_zero.mp h
    apply String.ext
    rw [hd]
  · intro h
    subst h
    rfl

/-- Looking up the key just set finds the value just set. -/
theorem getKey_setKey_self {α : Type} (k : String) (v : α) (l : List (String × α)) :
    getKey k (setKey k v l) = some v := by
  induction l with
  | nil => simp [getKey, setKey]
  | cons p rest ih =>
    obtain ⟨k', v'⟩ := p
    by_cases h : k' = k <;> simp [getKey, setKey, h, ih]

/-- Setting one key leaves the lookup of every other key unchanged. -/
theorem getKey_setKey_ne {α : Type} (k k' : String) (v : α) (l : List (String × α))
    (h : k' ≠ k) : getKey k' (setKey k v l) = getKey k' l := by
  induction l with
  | nil => simp [getKey, setKey, Ne.symm h]
  | cons p rest ih =>
    obtain ⟨a, b⟩ := p
    by_cases ha : a = k
    · subst ha
      simp [getKey, setKey, Ne.symm h, h, ih]
    · by_cases ha' : a = k' <;> simp [getKey, setKey, ha, ha', h, ih]

/-- Replacing dots by dashes leaves no dot in the result. -/
theorem replaceDots_no_dot (l : List Char) : '.' ∉ replaceDots l := by
  induction l with
  | nil => simp [replaceDots]
  | cons c cs ih =>
    by_cases h : c = '.' <;> simp [replaceDots, h, ih]
    exact fun hc => h hc.symm

/-- `takeBeforeFirst ".env"` cuts a dot-free part exactly at the following
".env" occurrence. -/
theorem takeBeforeFirst_env (l suffix : List Char) (h : '.' ∉ l) :
    takeBeforeFirst ('.' :: 'e' :: 'n' :: 'v' :: [])
      (l ++ '.' :: 'e' :: 'n' :: 'v' :: suffix) = l := by
  induction l with
  | nil => simp [takeBeforeFirst, startsWith]
  | cons c cs ih =>
    have hc : c ≠ '.' := fun hc => h (by simp [hc])
    have hcs : '.' ∉ cs := fun hcs => h (by simp [hcs])
    have hbc : ('.' == c) = false := beq_eq_false_iff_ne.mpr (Ne.symm hc)
    have hstart : startsWith ('.' :: 'e' :: 'n' :: 'v' :: [])
        (c :: (cs ++ '.' :: 'e' :: 'n' :: 'v' :: suffix)) = false := by
      simp [startsWith, hbc]
    simp [takeBeforeFirst, hstart, ih hcs]

/-- A skipped file-sync loop leaves the manifest untouched and cannot raise. -/
theorem cfg_files_loop_skip (d : UpdateDict) (fb : Option (List (String × JVal)))
    (l : List String) (hE : d.skip_update_extensions = true)
    (hF : d.skip_update_firebase_config = true) :
    cfg_files_loop d fb l = .ok fb := by
  induction l with
  | nil => rfl
  | cons x xs ih => simp [cfg_files_loop, hE, hF, ih]

/-! ## Claim theorems -/

/-- C3 counterexample: the environment filter "dev,all" contains the token
"all", yet the resolved environment list is ["dev"], not the full configured
list ["dev", "prod"] — `list.remove("all")` drops only the first "all" and
the remaining token list is non-empty, so the full set is never substituted. -/
theorem c3_counterexample_all_with_other_tokens :
    "all" ∈ (splitOnComma "dev,all".data).map (fun l => String.mk l) ∧
    resolve_environments "dev,all" ["dev", "prod"] ≠ ["dev", "prod"] := by
  decide

/-- C3 amended: the resolved environment list equals the full configured list
when the filter is exactly "all" (the only filter whose token list becomes
empty after removing the first "all"); whenever tokens remain after that
removal, the resolved list is exactly those remaining tokens. -/
theorem c3_amended_all_token_resolution (filter : String) (configured : List String) :
    (filter = "all" → resolve_environments filter configured = configured) ∧
    (get_environments_to_deploy filter ≠ [] →
      resolve_environments filter configured = get_environments_to_deploy filter) := by
  constructor
  · intro h
    subst h
    have hall : get_environments_to_deploy "all" = [] := by decide
    simp [resolve_environments, hall]
  · intro h
    simp [resolve_environments, h]

/-- Witness for the amended C3 at concrete inputs. -/
theorem c3_amended_witness :
    resolve_environments "all" ["dev", "prod"] = ["dev", "prod"] ∧
    resolve_environments "dev,all" ["dev", "prod"] = get_environments_to_deploy "dev,all" :=
  ⟨(c3_amended_all_token_resolution "all" ["dev", "prod"]).1 rfl,
   (c3_amended_all_token_resolution "dev,all" ["dev", "prod"]).2 (by decide)⟩

/-- C4 counterexample: for verb "up" and a change summary with no "same"
bucket but a non-empty remainder (here one "create" entry), the claim says
the update proceeds (skip = false), but `del resource_changes["same"]` raises
KeyError, the bare except leaves the default, and the function returns
true. -/
theorem c4_counterexample_missing_same_bucket :
    skip_file_update ⟨false, some [("create", 2)]⟩ "up" = true ∧
    spec_remove_same [("create", 2)] ≠ [] := by
  decide

/-- C4 amended: skip_file_update returns true for every verb other than "up"
and for every failure extracting the change summary; for verb "up", when the
summary has no "same" bucket the deletion raises KeyError and the function
returns true regardless of the other buckets; when the "same" bucket is
present, it returns true exactly when nothing else remains after deleting
it. -/
theorem c4_amended_skip_file_update (resp : StackBeh) (verb : String) :
    (verb ≠ "up" → skip_file_update resp verb = true) ∧
    (resp.resource_changes = none → skip_file_update resp verb = true) ∧
    (∀ rc, resp.resource_changes = some rc → delKey "same" rc = none →
      skip_file_update resp verb = true) ∧
    (∀ rc rc', resp.resource_changes = some rc → delKey "same" rc = some rc' →
      (skip_file_update resp "up" = true ↔ rc' = [])) := by
  refine ⟨?_, ?_, ?_, ?_⟩
  · intro h
    simp [skip_file_update, h]
  · intro h
    by_cases hv : verb = "up" <;> simp [skip_file_update, hv, h]
  · intro rc h1 h2
    by_cases hv : verb = "up" <;> simp [skip_file_update, hv, h1, h2]
  · intro rc rc' h1 h2
    simp [skip_file_update, h1, h2, List.length_eq_zero]

/-- Witness for the amended C4 at concrete inputs: "rm" always skips, and an
"up" summary of one "same" and one "create" entry does not skip. -/
theorem c4_amended_witness :
    skip_file_update ⟨false, some [("create", 2)]⟩ "rm" = true ∧
    (skip_file_update ⟨false, some [("same", 1), ("create", 2)]⟩ "up" = true ↔
      ([("create", 2)] : List (String × Int)) = []) :=
  ⟨(c4_amended_skip_file_update ⟨false, some [("create", 2)]⟩ "rm").1 (by decide),
   (c4_amended_skip_file_update ⟨false, some [("same", 1), ("create", 2)]⟩ "up").2.2.2
     [("same", 1), ("create", 2)] [("create", 2)] rfl rfl⟩

/-- C6: whenever the environment key is absent from the parsed admin-secrets
file, `get_agp_admin_config` returns normally (no exception) with exactly the
triple ("", "", "") and the missing-environment warning logged. -/
theorem c6_missing_env_empty_creds (entries : List (String × EnvCreds)) (env : String)
    (h : getKey env entries = none) :
    get_agp_admin_config (some entries) env = .ok ⟨("", "", ""), true⟩ := by
  simp [get_agp_admin_config, h]

/-- Witness for C6 at a concrete input. -/
theorem c6_witness :
    get_agp_admin_config (some [("search-dev", ⟨some "k", some "a", some "g"⟩)]) "search-prod"
      = .ok ⟨("", "", ""), true⟩ :=
  c6_missing_env_empty_creds [("search-dev", ⟨some "k", some "a", some "g"⟩)] "search-prod" rfl

/-- C8: every unset optional field of an API-key spec resolves to its
documented default: maxApiCall 15000, maxHitsPerQuery 0, validity 0, empty
index and referer lists, and description "API Key for " followed by the key
name. -/
theorem c8_api_key_defaults (k : ApiKeySpecDict) :
    (k.maxApiCall = none → (resolve_api_key k).max_api_call = 15000) ∧
    (k.maxHitsPerQuery = none → (resolve_api_key k).max_hits_per_query = 0) ∧
    (k.validity = none → (resolve_api_key k).validity = 0) ∧
    (k.indexes = none → (resolve_api_key k).indexes = []) ∧
    (k.referers = none → (resolve_api_key k).referers = []) ∧
    (∀ n, k.name = some n → k.description = none →
      (resolve_api_key k).description = "API Key for " ++ n) := by
  refine ⟨?_, ?_, ?_, ?_, ?_, ?_⟩ <;> intros <;> simp_all [resolve_api_key, pyOptStr]

/-- Witness for C8 at a concrete spec with all optional fields unset. -/
theorem c8_witness :
    (resolve_api_key ⟨some "search", some ["search"], none, none, none, none, none, none⟩).max_api_call = 15000 ∧
    (resolve_api_key ⟨some "search", some ["search"], none, none, none, none, none, none⟩).max_hits_per_query = 0 ∧
    (resolve_api_key ⟨some "search", some ["search"], none, none, none, none, none, none⟩).validity = 0 ∧
    (resolve_api_key ⟨some "search", some ["search"], none, none, none, none, none, none⟩).indexes = [] ∧
    (resolve_api_key ⟨some "search", some ["search"], none, none, none, none, none, none⟩).referers = [] ∧
    (resolve_api_key ⟨some "search", some ["search"], none, none, none, none, none, none⟩).description = "API Key for " ++ "search" :=
  ⟨(c8_api_key_defaults _).1 rfl, (c8_api_key_defaults _).2.1 rfl,
   (c8_api_key_defaults _).2.2.1 rfl, (c8_api_key_defaults _).2.2.2.1 rfl,
   (c8_api_key_defaults _).2.2.2.2.1 rfl,
   (c8_api_key_defaults _).2.2.2.2.2 "search" rfl rfl⟩

/-- C9 counterexample: with forceDataSync unset at both levels, the value the
source resolves for FORCE_DATA_SYNC is the string "no" (the default
`get_env_config` passes to `.get`), which is not the boolean false. -/
theorem c9_counterexample_default_is_string_no :
    (get_env_config c9Cfg).map (fun g => env_force_data_sync c9Conf g.force_data_sync)
      = .ok (PyVal.vstr "no") ∧ PyVal.vstr "no" ≠ PyVal.vbool false :=
  ⟨rfl, by decide⟩

/-- C9 amended: for every configuration with forceDataSync unset at both the
global and the environment level, the resolved FORCE_DATA_SYNC value is the
string "no" (rendered as "no" in the extension file), not a boolean. -/
theorem c9_amended_default_no (cfg : AgpCfg) (gl : GlobalCfg) (conf : EnvConf)
    (hg : cfg.glob = some gl) (h1 : gl.forceDataSync = none)
    (h2 : conf.forceDataSync = none) :
    (get_env_config cfg).map (fun g => env_force_data_sync conf g.force_data_sync)
      = .ok (PyVal.vstr "no") := by
  simp [get_env_config, hg, h1, env_force_data_sync, h2, Except.map]

/-- Witness for the amended C9 at the concrete unset configuration. -/
theorem c9_witness :
    (get_env_config c9Cfg).map (fun g => env_force_data_sync c9Conf g.force_data_sync)
      = .ok (PyVal.vstr "no") :=
  c9_amended_default_no c9Cfg _ c9Conf rfl rfl rfl

/-- The manifest key of an extension file name is the dash-replaced index
with the "search-" marker and without the ".env.{environment}" suffix. -/
theorem split_env_key_extension (index environment : String) :
    split_env_key (extension_file_name index environment) = "search-" ++ pyReplaceDot index := by
  apply String.ext
  have hnodot : '.' ∉ "search-".data ++ replaceDots index.data := by
    intro hmem
    rcases List.mem_append.mp hmem with h | h
    · revert h
      decide
    · exact replaceDots_no_dot index.data h
  have hdata : (extension_file_name index environment).data
      = ("search-".data ++ replaceDots index.data)
        ++ ('.' :: 'e' :: 'n' :: 'v' :: ('.' :: environment.data)) := by
    simp only [extension_file_name, String.data_append, List.append_assoc]
    rfl
  show takeBeforeFirst ".env".data (extension_file_name index environment).data
      = ("search-" ++ pyReplaceDot index).data
  rw [hdata, String.data_append]
  exact takeBeforeFirst_env _ _ hnodot

/-- C7: extension file names are derived by dash-replacing the index name,
prefixing "search-" and suffixing ".env." plus the environment; the manifest
key is always that identifier without the ".env.{environment}" suffix; the
claimed example for indexes "a.b" and "c" in environment "prod" holds, and
the manifest entry written for such a key maps it to the configured
extension version string. -/
theorem c7_extension_names_and_manifest_keys :
    (∀ index environment : String,
      extension_file_name index environment =
        "search-" ++ pyReplaceDot index ++ ".env." ++ environment) ∧
    (∀ index environment : String,
      split_env_key (extension_file_name index environment) = "search-" ++ pyReplaceDot index) ∧
    extension_file_name "a.b" "prod" = "search-a-b.env.prod" ∧
    extension_file_name "c" "prod" = "search-c.env.prod" ∧
    split_env_key (extension_file_name "a.b" "prod") = "search-a-b" ∧
    split_env_key (extension_file_name "c" "prod") = "search-c" ∧
    (∀ (exts : List (String × JVal)) (index environment ver : String),
      getKey (split_env_key (extension_file_name index environment))
        (setKey (split_env_key (extension_file_name index environment)) (JVal.jstr ver) exts)
        = some (JVal.jstr ver)) :=
  ⟨fun _ _ => rfl, split_env_key_extension, rfl, rfl, by decide, by decide,
   fun exts _ _ ver => getKey_setKey_self _ (JVal.jstr ver) exts⟩

/-- C10: patching the manifest replaces exactly the entry of the derived
extension id inside the "extensions" object: every other top-level key keeps
its value, inside the "extensions" object every other extension id keeps its
version, and the patched id maps to the configured version string. -/
theorem c10_manifest_frame (entries exts : List (String × JVal)) (extId ver : String)
    (h : getKey "extensions" entries = some (JVal.jobj exts)) :
    firebase_update entries extId ver =
      some (setKey "extensions" (JVal.jobj (setKey extId (JVal.jstr ver) exts)) entries) ∧
    (∀ k, k ≠ "extensions" →
      getKey k (setKey "extensions" (JVal.jobj (setKey extId (JVal.jstr ver) exts)) entries)
        = getKey k entries) ∧
    getKey "extensions"
        (setKey "extensions" (JVal.jobj (setKey extId (JVal.jstr ver) exts)) entries)
      = some (JVal.jobj (setKey extId (JVal.jstr ver) exts)) ∧
    (∀ k, k ≠ extId → getKey k (setKey extId (JVal.jstr ver) exts) = getKey k exts) ∧
    getKey extId (setKey extId (JVal.jstr ver) exts) = some (JVal.jstr ver) :=
  ⟨by simp [firebase_update, h], fun k hk => getKey_setKey_ne _ _ _ _ hk,
   getKey_setKey_self _ _ _, fun k hk => getKey_setKey_ne _ _ _ _ hk,
   getKey_setKey_self _ _ _⟩

/-- Witness for C10 at a concrete manifest with one unrelated top-level entry
and one unrelated extension entry. -/
theorem c10_witness :
    firebase_update [("hosting", JVal.jstr "site"),
        ("extensions", JVal.jobj [("search-x", JVal.jstr "v0")])] "search-a-b" "v1" =
      some (setKey "extensions"
        (JVal.jobj (setKey "search-a-b" (JVal.jstr "v1") [("search-x", JVal.jstr "v0")]))
        [("hosting", JVal.jstr "site"),
         ("extensions", JVal.jobj [("search-x", JVal.jstr "v0")])]) ∧
    (∀ k, k ≠ "extensions" →
      getKey k (setKey "extensions"
        (JVal.jobj (setKey "search-a-b" (JVal.jstr "v1") [("search-x", JVal.jstr "v0")]))
        [("hosting", JVal.jstr "site"),
         ("extensions", JVal.jobj [("search-x", JVal.jstr "v0")])])
        = getKey k [("hosting", JVal.jstr "site"),
                    ("extensions", JVal.jobj [("search-x", JVal.jstr "v0")])]) ∧
    getKey "extensions" (setKey "extensions"
        (JVal.jobj (setKey "search-a-b" (JVal.jstr "v1") [("search-x", JVal.jstr "v0")]))
        [("hosting", JVal.jstr "site"),
         ("extensions", JVal.jobj [("search-x", JVal.jstr "v0")])])
      = some (JVal.jobj (setKey "search-a-b" (JVal.jstr "v1") [("search-x", JVal.jstr "v0")])) ∧
    (∀ k, k ≠ "search-a-b" →
      getKey k (setKey "search-a-b" (JVal.jstr "v1") [("search-x", JVal.jstr "v0")])
        = getKey k [("search-x", JVal.jstr "v0")]) ∧
    getKey "search-a-b" (setKey "search-a-b" (JVal.jstr "v1") [("search-x", JVal.jstr "v0")])
      = some (JVal.jstr "v1") :=
  c10_manifest_frame [("hosting", JVal.jstr "site"),
    ("extensions", JVal.jobj [("search-x", JVal.jstr "v0")])]
    [("search-x", JVal.jstr "v0")] "search-a-b" "v1" rfl

/-- C5: for every environment whose resolved admin credentials have an empty
apiKey, appId or gcpProject, `processEnv` executes no stack at all (all three
provisioning stages are skipped) and reaches file synchronization with both
skip flags forced to true, leaving the manifest untouched. -/
theorem c5_credential_gate_skips_all (args : Args) (g : EnvCfgResult)
    (secretsCfg : Option (List (String × EnvCreds))) (w : EnvWorld) (env : String)
    (fb : Option (List (String × JVal))) (envs : List (String × EnvConf)) (conf : EnvConf)
    (res : AdminCfgResult)
    (henvs : g.envs = some envs) (hconf : getKey env envs = some conf)
    (hres : get_agp_admin_config secretsCfg (pyOptStr conf.ns ++ "-" ++ env) = .ok res)
    (hempty : res.creds.1 = "" ∨ res.creds.2.1 = "" ∨ res.creds.2.2 = "") :
    processEnv args g secretsCfg w env fb =
      ([Event.envStart env, Event.fileSync true true], .ok fb) := by
  have hinc : (res.creds.1.length == 0 || res.creds.2.1.length == 0
      || res.creds.2.2.length == 0) = true := by
    rcases hempty with h | h | h <;> simp [h]
  simp only [processEnv, henvs, hconf, hres]
  simp [hinc, create_or_update_cfg_files, cfg_files_loop]

/-- Witness for C5: secrets file with no entry for "search-dev" yields empty
credentials and a fully gated environment. -/
theorem c5_witness :
    processEnv c5Args c5G (some []) c5World "dev" (some []) =
      ([Event.envStart "dev", Event.fileSync true true], .ok (some [])) :=
  c5_credential_gate_skips_all c5Args c5G (some []) c5World "dev" (some [])
    [("dev", c5Conf)] c5Conf ⟨("", "", ""), true⟩ rfl rfl rfl (Or.inl rfl)

/-- The "up" verb on a stack whose operation raises an ordinary exception
produces that exception. -/
theorem execute_up_raises (beh : StackBeh) (h : beh.raises = true) :
    execute_pulumi_verb beh "up" = .error PyErr.exc := by
  simp [execute_pulumi_verb, h]

/-- C2 amended: exceptions inside the index and API-key provisioning stages
are contained — here both stages raise ordinary exceptions during an "up" run
on an environment with complete credentials, yet the environment finishes
normally with both file-sync flags downgraded to skip and the manifest
untouched, and the remaining environments are processed exactly as they would
have been without the failure.  (Exceptions raised in the file-sync step
itself are not contained; see the counterexample.) -/
theorem c2_amended_stage_errors_contained (args : Args) (g : EnvCfgResult)
    (secretsCfg : Option (List (String × EnvCreds))) (worlds : String → EnvWorld)
    (fb : Option (List (String × JVal))) (env : String) (rest : List String)
    (envs : List (String × EnvConf)) (conf : EnvConf) (res : AdminCfgResult)
    (gen : List String) (kgen : List ApiKeySpecDict)
    (hverb : args.verb = "up")
    (hio : args.indexes_only = false) (hao : args.api_keys_only = false)
    (henvs : g.envs = some envs) (hconf : getKey env envs = some conf)
    (hgen : g.algolia_indexes_gen = some gen) (hkgen : g.algolia_api_keys_gen = some kgen)
    (hres : get_agp_admin_config secretsCfg (pyOptStr conf.ns ++ "-" ++ env) = .ok res)
    (h1 : res.creds.1 ≠ "") (h2 : res.creds.2.1 ≠ "") (h3 : res.creds.2.2 ≠ "")
    (hri : (worlds env).behIndexes.raises = true)
    (hrk : (worlds env).behApiKeys.raises = true) :
    runLoop args g secretsCfg worlds fb (env :: rest) =
      (Event.envStart env ::
        Event.stackExec
          (pyOptStr conf.pfx ++ "--" ++ pyOptStr conf.ns ++ "-" ++ env ++ "-indexes") "up" ::
        Event.stackExec
          (pyOptStr conf.pfx ++ "--" ++ pyOptStr conf.ns ++ "-" ++ env ++ "-api-keys") "up" ::
        Event.fileSync true true ::
        (runLoop args g secretsCfg worlds fb rest).1,
       (runLoop args g secretsCfg worlds fb rest).2) := by
  have l1 : (res.creds.1.length == 0) = false := by
    simp [string_length_eq_zero, h1]
  have l2 : (res.creds.2.1.length == 0) = false := by
    simp [string_length_eq_zero, h2]
  have l3 : (res.creds.2.2.length == 0) = false := by
    simp [string_length_eq_zero, h3]
  have hidx : index_stage args.verb
      (pyOptStr conf.pfx ++ "--" ++ pyOptStr conf.ns ++ "-" ++ env ++ "-indexes")
      (worlds env).behIndexes =
      ([Event.stackExec
          (pyOptStr conf.pfx ++ "--" ++ pyOptStr conf.ns ++ "-" ++ env ++ "-indexes") "up"],
        true) := by
    rw [hverb]
    simp [index_stage, execute_up_raises _ hri]
  have hapi : api_key_stage args.verb
      (pyOptStr conf.pfx ++ "--" ++ pyOptStr conf.ns ++ "-" ++ env) (worlds env) =
      ([Event.stackExec
          (pyOptStr conf.pfx ++ "--" ++ pyOptStr conf.ns ++ "-" ++ env ++ "-api-keys") "up"],
        .ok true) := by
    rw [hverb]
    simp [api_key_stage, execute_up_raises _ hrk]
  have hps : processEnv args g secretsCfg (worlds env) env fb =
      (Event.envStart env ::
        Event.stackExec
          (pyOptStr conf.pfx ++ "--" ++ pyOptStr conf.ns ++ "-" ++ env ++ "-indexes") "up" ::
        Event.stackExec
          (pyOptStr conf.pfx ++ "--" ++ pyOptStr conf.ns ++ "-" ++ env ++ "-api-keys") "up" ::
        [Event.fileSync true true], .ok fb) := by
    simp only [processEnv, henvs, hconf, hres]
    simp only [hio, hao, l1, l2, l3, Bool.false_or, Bool.or_false, Bool.not_false,
      Bool.and_true, Bool.true_and, Bool.not_true, Bool.and_false, Bool.false_and]
    simp only [hgen, hkgen, hidx, hapi]
    simp [create_or_update_cfg_files]
    exact cfg_files_loop_skip _ fb (gen ++ conf.algoliaIndexes.getD []) rfl rfl
  rcases hr : runLoop args g secretsCfg worlds fb rest with ⟨ev', r'⟩
  simp [runLoop, hps, hr]

/-- Witness for the amended C2: with both stages of "dev" raising, the loop
still reaches "prod" with an unchanged manifest. -/
theorem c2_amended_witness :
    runLoop c2wArgs c2wG c2wSecrets c2wWorlds (some []) ["dev", "prod"] =
      (Event.envStart "dev" ::
        Event.stackExec "acme--search-dev-indexes" "up" ::
        Event.stackExec "acme--search-dev-api-keys" "up" ::
        Event.fileSync true true ::
        (runLoop c2wArgs c2wG c2wSecrets c2wWorlds (some []) ["prod"]).1,
       (runLoop c2wArgs c2wG c2wSecrets c2wWorlds (some []) ["prod"]).2) :=
  c2_amended_stage_errors_contained c2wArgs c2wG c2wSecrets c2wWorlds (some [])
    "dev" ["prod"] [("dev", c2wConf), ("prod", c2wConf)] c2wConf
    ⟨("k", "a", "g"), false⟩ ["gidx"] [] rfl rfl rfl rfl rfl rfl rfl rfl
    (by decide) (by decide) (by decide) rfl rfl

/-- C2 counterexample: an exception raised in the file-sync step of the first
environment (here the NameError from the undefined `admin_app_id` read at
line 352, reached because the successful index "up" left extension updates
enabled) propagates out of `run`: environment "e2" is never started, refuting
the claim that exceptions in any stage or the file-sync step never abort
subsequent environments. -/
theorem c2_counterexample_filesync_aborts_run :
    run_model c2Args c2Cfg c2Secrets c2Worlds (some []) =
      ([Event.envStart "e1", Event.stackExec "p--ns-e1-indexes" "up",
        Event.fileSync false false], .error PyErr.exc) ∧
    Event.envStart "e2" ∉ (run_model c2Args c2Cfg c2Secrets c2Worlds (some [])).1 :=
  ⟨rfl, by decide⟩

/-- C1: the "preview" verb on the first stack reached (the indexes stack of
environment "e1") raises SystemExit(0) via `exit(0)`, but the bare `except:`
of the index stage catches it, so the process does not terminate: the run
continues through the file-sync step of "e1" and through all of environment
"e2", completing normally instead of exiting right after the first
preview. -/
theorem c1_preview_swallowed_run_continues :
    run_model c1Args c1Cfg c1Secrets c1Worlds (some []) =
      ([Event.envStart "e1", Event.stackExec "p--ns-e1-indexes" "preview",
        Event.fileSync true true,
        Event.envStart "e2", Event.stackExec "p--ns-e2-indexes" "preview",
        Event.fileSync true true], .ok (some [])) := rfl
